import Mathlib

/-!
Shallow embedding of the capacity-aware time-slot validation and booking
engine of `src/validate-service/app.py` (class `IntentValidator` plus the
module-level mock data).

Modelling conventions:
* Python `str` values are Lean `String`s; the regex fragments used by the
  source (`re.match` with the two time patterns, and CPython `strptime`
  directives `%Y`, `%m`, `%d`, `%H`, `%M`) are embedded as explicit
  backtracking parsers over `List Char` that recognise exactly the same
  languages, in the same alternation order.
* Python `datetime` values are embedded at second granularity as the record
  `PyDateTime` (year, month, day, hour, minute, second); sub-second
  precision, which the engine never renders and which can shift a truncated
  minute difference only through the fallback reference of
  `_find_alternative_slots`, is elided.  Instants are compared through
  `toSec`, built on the standard days-from-civil ordinal, which agrees with
  `datetime` ordering on all valid dates.
* The module-global mutable dict `MOCK_TIME_SLOTS` is the store state: an
  insertion-ordered association list, passed in and (for `book_slot`)
  returned explicitly.  `datetime.now()` is an explicit `now` parameter;
  the several `now()` calls inside one request are modelled as one reading.
* Python ints are `Int` where subtraction appears (`capacity - booked`),
  so the `0 ≤ booked ≤ capacity` invariant is not baked into the types.
-/

/-- A Python `datetime` at second granularity. -/
structure PyDateTime where
  year : Nat
  month : Nat
  day : Nat
  hour : Nat
  minute : Nat
  second : Nat
deriving DecidableEq, Repr

/-- One slot record `{"capacity": ..., "booked": ...}` of `MOCK_TIME_SLOTS`. -/
structure SlotInfo where
  capacity : Int
  booked : Int
deriving DecidableEq, Repr

/-- The `MOCK_TIME_SLOTS` state: date → (time → slot record), insertion order kept. -/
def Store := List (String × List (String × SlotInfo))

/-- First-match association-list lookup: Python dict read `d[k]` / `k in d`. -/
def alookup {α : Type} (k : String) : List (String × α) → Option α
  | [] => none
  | (k', v) :: rest => if k = k' then some v else alookup k rest

/-- Python whitespace for `str.strip` and the regex `\s` (ASCII fragment). -/
def isPySpace (c : Char) : Bool :=
  c = ' ' || c = '\t' || c = '\n' || c = '\r' || c = '\x0b' || c = '\x0c'

/-- `str.strip()` on ASCII text. -/
def pyStrip (cs : List Char) : List Char :=
  ((cs.dropWhile isPySpace).reverse.dropWhile isPySpace).reverse

/-- `str.lower()` (ASCII fragment). -/
def lowerStr (s : String) : String := ⟨s.data.map Char.toLower⟩

/-- Haystack starts with needle (`List Char` version). -/
def startsWithL : List Char → List Char → Bool
  | [], _ => true
  | _ :: _, [] => false
  | a :: as, b :: bs => a == b && startsWithL as bs

/-- Python substring containment `needle in hay`. -/
def containsL (pat : List Char) : List Char → Bool
  | [] => pat.isEmpty
  | c :: rest => startsWithL pat (c :: rest) || containsL pat rest

/-- Value of an ASCII digit, `none` for non-digits. -/
def digitVal (c : Char) : Option Nat :=
  if c.isDigit then some (c.toNat - 48) else none

/-- Matches of the regex fragment `\d{1,2}`, in greedy (two-digit first)
backtracking order, each with the unconsumed remainder. -/
def num12Options : List Char → List (Nat × List Char)
  | [] => []
  | [c] =>
    match digitVal c with
    | some d => [(d, [])]
    | none => []
  | c1 :: c2 :: rest =>
    match digitVal c1 with
    | none => []
    | some d1 =>
      match digitVal c2 with
      | some d2 => [(d1 * 10 + d2, rest), (d1, c2 :: rest)]
      | none => [(d1, c2 :: rest)]

/-- Matches of the optional group `(?::(\d{2}))?`: try the group, then skip it. -/
def minute2Options (cs : List Char) : List (Option Nat × List Char) :=
  match cs with
  | ':' :: c1 :: c2 :: rest =>
    match digitVal c1, digitVal c2 with
    | some d1, some d2 => [(some (d1 * 10 + d2), rest), (none, cs)]
    | _, _ => [(none, cs)]
  | _ => [(none, cs)]

/-- The regex fragment `\s*` (greedy; nothing after it can match whitespace). -/
def dropSpaces (cs : List Char) : List Char := cs.dropWhile isPySpace

/-- The regex fragment `(am|pm)` at the current position (`re.match` allows
trailing input).  `true` means `pm`. -/
def periodAt : List Char → Option Bool
  | 'a' :: 'm' :: _ => some false
  | 'p' :: 'm' :: _ => some true
  | _ => none

/-- `re.match(r'(\d{1,2})(?::(\d{2}))?\s*(am|pm)', s)` giving
(hour group, minute group defaulted to 0, is-pm). -/
def matchAmPm (cs : List Char) : Option (Nat × Nat × Bool) :=
  (num12Options cs).findSome? fun hr =>
    (minute2Options hr.2).findSome? fun mr =>
      (periodAt (dropSpaces mr.2)).map fun pm => (hr.1, mr.1.getD 0, pm)

/-- `re.match(r'(\d{1,2}):(\d{2})', s)` giving (hour group, minute group). -/
def matchHM (cs : List Char) : Option (Nat × Nat) :=
  (num12Options cs).findSome? fun hr =>
    match hr.2 with
    | ':' :: c1 :: c2 :: _ =>
      match digitVal c1, digitVal c2 with
      | some d1, some d2 => some (hr.1, d1 * 10 + d2)
      | _, _ => none
    | _ => none

/-- Python `f"{n:02d}"` (and with `w = 4`, `strftime` zero-padded `%Y`). -/
def padNum (w n : Nat) : String :=
  let s := toString n
  ⟨List.replicate (w - s.length) '0'⟩ ++ s

/-- `IntentValidator._normalize_time_slot`. -/
def normalize_time_slot (time_slot : String) : String :=
  let ts : String := ⟨pyStrip (lowerStr time_slot).data⟩
  if ts = "morning" then "09:00"
  else if ts = "afternoon" then "14:00"
  else if ts = "evening" then "18:00"
  else if ts = "noon" then "12:00"
  else
    match matchAmPm ts.data with
    | some (h, m, pm) =>
      let hour := if pm && h ≠ 12 then h + 12 else if !pm && h = 12 then 0 else h
      padNum 2 hour ++ ":" ++ padNum 2 m
    | none =>
      match matchHM ts.data with
      | some (h, m) => padNum 2 h ++ ":" ++ padNum 2 m
      | none => ts

example : normalize_time_slot "morning" = "09:00" := by decide
example : normalize_time_slot "  MORNING " = "09:00" := by decide
example : normalize_time_slot "2:30 PM" = "14:30" := by decide
example : normalize_time_slot "12 am" = "00:00" := by decide
example : normalize_time_slot "12 pm" = "12:00" := by decide
example : normalize_time_slot "3 pm" = "15:00" := by decide
example : normalize_time_slot "14:00" = "14:00" := by decide
example : normalize_time_slot "9:30" = "09:30" := by decide
example : normalize_time_slot "13 pm" = "25:00" := by decide
example : normalize_time_slot "25:99" = "25:99" := by decide
example : normalize_time_slot "tomorrow-ish" = "tomorrow-ish" := by decide

/-- CPython `strptime` directive `%m`, regex `1[0-2]|0[1-9]|[1-9]`, in
alternation order. -/
def monthOptions : List Char → List (Nat × List Char)
  | [] => []
  | [c] =>
    match digitVal c with
    | some d => if 1 ≤ d then [(d, [])] else []
    | none => []
  | c1 :: c2 :: rest =>
    match digitVal c1 with
    | none => []
    | some d1 =>
      let two :=
        match digitVal c2 with
        | some d2 =>
          if d1 = 1 && d2 ≤ 2 then [(10 + d2, rest)]
          else if d1 = 0 && 1 ≤ d2 then [(d2, rest)]
          else []
        | none => []
      two ++ (if 1 ≤ d1 then [(d1, c2 :: rest)] else [])

/-- CPython `strptime` directive `%d`, regex `3[01]|[12]\d|0[1-9]|[1-9]`. -/
def dayOptions : List Char → List (Nat × List Char)
  | [] => []
  | [c] =>
    match digitVal c with
    | some d => if 1 ≤ d then [(d, [])] else []
    | none => []
  | c1 :: c2 :: rest =>
    match digitVal c1 with
    | none => []
    | some d1 =>
      let two :=
        match digitVal c2 with
        | some d2 =>
          if d1 = 3 && d2 ≤ 1 then [(30 + d2, rest)]
          else if d1 = 1 || d1 = 2 then [(d1 * 10 + d2, rest)]
          else if d1 = 0 && 1 ≤ d2 then [(d2, rest)]
          else []
        | none => []
      two ++ (if 1 ≤ d1 then [(d1, c2 :: rest)] else [])

/-- CPython `strptime` directive `%H`, regex `2[0-3]|[0-1]\d|\d`. -/
def hour24Options : List Char → List (Nat × List Char)
  | [] => []
  | [c] =>
    match digitVal c with
    | some d => [(d, [])]
    | none => []
  | c1 :: c2 :: rest =>
    match digitVal c1 with
    | none => []
    | some d1 =>
      let two :=
        match digitVal c2 with
        | some d2 =>
          if d1 = 2 && d2 ≤ 3 then [(20 + d2, rest)]
          else if d1 ≤ 1 then [(d1 * 10 + d2, rest)]
          else []
        | none => []
      two ++ [(d1, c2 :: rest)]

/-- CPython `strptime` directive `%M`, regex `[0-5]\d|\d`. -/
def minute60Options : List Char → List (Nat × List Char)
  | [] => []
  | [c] =>
    match digitVal c with
    | some d => [(d, [])]
    | none => []
  | c1 :: c2 :: rest =>
    match digitVal c1 with
    | none => []
    | some d1 =>
      let two :=
        match digitVal c2 with
        | some d2 => if d1 ≤ 5 then [(d1 * 10 + d2, rest)] else []
        | none => []
      two ++ [(d1, c2 :: rest)]

/-- Gregorian leap year, as in `datetime`. -/
def isLeap (y : Nat) : Bool := y % 4 = 0 && (y % 100 ≠ 0 || y % 400 = 0)

/-- Days in a month, as in `datetime`. -/
def daysInMonth (y m : Nat) : Nat :=
  if m = 2 then (if isLeap y then 29 else 28)
  else if m = 4 || m = 6 || m = 9 || m = 11 then 30
  else 31

/-- `datetime.strptime(s, "%H:%M")`: full match with field-range checks. -/
def parseTimeHM (cs : List Char) : Option (Nat × Nat) :=
  (hour24Options cs).findSome? fun hr =>
    match hr.2 with
    | ':' :: rest2 =>
      (minute60Options rest2).findSome? fun mr =>
        if mr.2.isEmpty then some (hr.1, mr.1) else none
    | _ => none

/-- `datetime.strptime(s, "%Y-%m-%d")`: `%Y` is exactly four digits, the
constructed date must be a valid `datetime.date` (year ≥ 1, real day). -/
def parseDate (cs : List Char) : Option (Nat × Nat × Nat) :=
  match cs with
  | c1 :: c2 :: c3 :: c4 :: '-' :: rest =>
    match digitVal c1, digitVal c2, digitVal c3, digitVal c4 with
    | some y1, some y2, some y3, some y4 =>
      let y := ((y1 * 10 + y2) * 10 + y3) * 10 + y4
      (monthOptions rest).findSome? fun mo =>
        match mo.2 with
        | '-' :: rest3 =>
          (dayOptions rest3).findSome? fun dy =>
            if dy.2.isEmpty && 1 ≤ y && dy.1 ≤ daysInMonth y mo.1 then
              some (y, mo.1, dy.1)
            else none
        | _ => none
    | _, _, _, _ => none
  | _ => none

/-- Proleptic-Gregorian day ordinal (days-from-civil, unshifted epoch);
valid and strictly monotone for year ≥ 1, which `parseDate` guarantees. -/
def daysFromCivil (y m d : Nat) : Nat :=
  let y' := if m ≤ 2 then y - 1 else y
  let era := y' / 400
  let yoe := y' % 400
  let mp := if 2 < m then m - 3 else m + 9
  let doy := (153 * mp + 2) / 5 + (d - 1)
  let doe := yoe * 365 + yoe / 4 - yoe / 100 + doy
  era * 146097 + doe

/-- The `.date()` ordinal of a `PyDateTime`. -/
def dateOrd (t : PyDateTime) : Nat := daysFromCivil t.year t.month t.day

/-- Seconds-since-epoch of a `PyDateTime`; `datetime` comparison and
`timedelta.total_seconds()` are computed through this. -/
def toSec (t : PyDateTime) : Nat :=
  dateOrd t * 86400 + t.hour * 3600 + t.minute * 60 + t.second

/-- `abs((a - b).total_seconds())` for whole-second instants. -/
def absDiff (a b : Nat) : Nat := max a b - min a b

/-- `datetime.strptime(f"{date} {time}", "%Y-%m-%d %H:%M")` for a date
string without embedded spaces: both halves must fully parse. -/
def parseDateTime (date time : String) : Option PyDateTime :=
  match parseDate date.data with
  | none => none
  | some (y, m, d) =>
    match parseTimeHM time.data with
    | none => none
    | some (h, mi) => some ⟨y, m, d, h, mi, 0⟩

example : parseDate "2025-05-26".data = some (2025, 5, 26) := by decide
example : parseDate "2025-13-01".data = none := by decide
example : parseDate "2025-02-29".data = none := by decide
example : parseDate "2024-02-29".data = some (2024, 2, 29) := by decide
example : parseDate "0000-05-26".data = none := by decide
example : parseDate "2025-5-6".data = some (2025, 5, 6) := by decide
example : parseDate "2025-05-26x".data = none := by decide
example : parseTimeHM "09:00".data = some (9, 0) := by decide
example : parseTimeHM "9:5".data = some (9, 5) := by decide
example : parseTimeHM "25:00".data = none := by decide
example : parseTimeHM "23:59".data = some (23, 59) := by decide
example : parseTimeHM "14:60".data = none := by decide
example : daysFromCivil 2025 5 28 = daysFromCivil 2025 5 26 + 2 := by decide
example : daysFromCivil 2024 3 1 = daysFromCivil 2024 2 28 + 2 := by decide
example : daysFromCivil 2025 3 1 = daysFromCivil 2025 2 28 + 1 := by decide
example : daysFromCivil 2025 1 1 = daysFromCivil 2024 12 31 + 1 := by decide

/-- One alternative entry produced by `_find_alternative_slots`. -/
structure AltSlot where
  time : String
  available_spots : Int
  capacity : Int
  time_difference_minutes : Nat
deriving DecidableEq, Repr

/-- `datetime.now().replace(hour=12, minute=0)`: today's date and current
second, with the hour and minute fields overwritten. -/
def noonFallback (now : PyDateTime) : PyDateTime :=
  { now with hour := 12, minute := 0 }

/-- Loop body of `_find_alternative_slots`: keep a slot with spare capacity
whose `f"{date} {slot_time}"` parses, with its truncated minute distance
to the reference instant; skip it otherwise. -/
def mkAltEntry (ref : PyDateTime) (date : String) (p : String × SlotInfo) : Option AltSlot :=
  if p.2.capacity - p.2.booked > 0 then
    match parseDateTime date p.1 with
    | some sdt =>
      some ⟨p.1, p.2.capacity - p.2.booked, p.2.capacity,
            absDiff (toSec sdt) (toSec ref) / 60⟩
    | none => none
  else none

/-- The unsorted alternative list of `_find_alternative_slots`: the slots of
the date in enumeration order, filtered and measured against the reference
instant (the parsed request, or the noon fallback). -/
def alternative_entries (now : PyDateTime) (date requested_time : String)
    (available_slots : List (String × SlotInfo)) : List AltSlot :=
  let ref := (parseDateTime date requested_time).getD (noonFallback now)
  available_slots.filterMap (mkAltEntry ref date)

/-- Comparison key of `alternatives.sort(key=lambda x: x["time_difference_minutes"])`. -/
def altLE (a b : AltSlot) : Prop :=
  a.time_difference_minutes ≤ b.time_difference_minutes

instance : DecidableRel altLE := fun a b =>
  inferInstanceAs (Decidable (a.time_difference_minutes ≤ b.time_difference_minutes))

/-- `IntentValidator._find_alternative_slots`; Python `list.sort` is stable,
as is `List.insertionSort`, so the two agree on every input. -/
def find_alternative_slots (now : PyDateTime) (date requested_time : String)
    (available_slots : List (String × SlotInfo)) : List AltSlot :=
  List.insertionSort altLE (alternative_entries now date requested_time available_slots)

/-- The module-level `MOCK_PROVIDERS` table. -/
def MOCK_PROVIDERS : List (String × List String) :=
  [("medical", ["Dr. Smith", "Dr. Johnson", "City Medical Center", "Health Clinic"]),
   ("dental", ["Dr. Brown", "Dental Care Center", "Smile Clinic"]),
   ("beauty", ["Style Salon", "Beauty Hub", "Hair Masters", "John\x27s Barber"]),
   ("automotive", ["Quick Fix Garage", "Auto Care Center"]),
   ("legal", ["Johnson Law Firm", "Legal Associates"])]

/-- The module-level initial `MOCK_TIME_SLOTS` state. -/
def MOCK_TIME_SLOTS : Store :=
  [("2025-05-26",
    [("09:00", ⟨3, 1⟩), ("10:00", ⟨2, 2⟩), ("11:00", ⟨4, 0⟩),
     ("14:00", ⟨3, 1⟩), ("15:00", ⟨2, 0⟩), ("16:00", ⟨1, 0⟩)]),
   ("2025-05-27",
    [("09:00", ⟨3, 2⟩), ("10:30", ⟨2, 0⟩), ("13:00", ⟨4, 3⟩),
     ("14:30", ⟨3, 0⟩), ("16:00", ⟨2, 1⟩)]),
   ("2025-05-28",
    [("08:00", ⟨2, 0⟩), ("09:30", ⟨3, 1⟩), ("11:00", ⟨4, 4⟩),
     ("15:00", ⟨3, 0⟩), ("17:00", ⟨1, 0⟩)])]

/-- Result record of `IntentValidator._validate_provider`. -/
structure ProviderValidation where
  valid : Bool
  message : String
  suggestions : List String
deriving DecidableEq, Repr

/-- `IntentValidator._validate_provider`. -/
def validate_provider (provider_name service_type : String) : ProviderValidation :=
  match alookup service_type MOCK_PROVIDERS with
  | none =>
    ⟨false, "Unknown service type: " ++ service_type,
     ["Available service types: " ++ String.intercalate ", " (MOCK_PROVIDERS.map (·.1))]⟩
  | some available_providers =>
    let provider_lower := lowerStr provider_name
    if available_providers.any (fun avail =>
        containsL provider_lower.data (lowerStr avail).data ||
        containsL (lowerStr avail).data provider_lower.data ||
        provider_lower = lowerStr avail) then
      ⟨true, "Provider validated", []⟩
    else
      ⟨false, "Provider \x27" ++ provider_name ++ "\x27 not found for " ++
              service_type ++ " services",
       ["Available " ++ service_type ++ " providers: " ++
        String.intercalate ", " available_providers]⟩

/-- The `IntentData` request model (field order as in the source;
`confidence` defaults to `"medium"` and is never used in decisions). -/
structure IntentData where
  provider_name : Option String
  time_slot : Option String
  service_type : Option String
  date : Option String
  confidence : Option String := some "medium"
deriving DecidableEq, Repr

/-- Python truthiness-plus-blank test `not value or value.strip() == ""`. -/
def isBlankOpt : Option String → Bool
  | none => true
  | some s => s.isEmpty || (pyStrip s.data).isEmpty

/-- `IntentValidator._check_missing_fields` (fixed `required_fields` order). -/
def check_missing_fields (i : IntentData) : List String :=
  (if isBlankOpt i.provider_name then ["provider_name"] else []) ++
  (if isBlankOpt i.service_type then ["service_type"] else []) ++
  (if isBlankOpt i.date then ["date"] else []) ++
  (if isBlankOpt i.time_slot then ["time_slot"] else [])

/-- The fixed prompt table of `_generate_missing_field_suggestions`. -/
def field_prompt (f : String) : Option String :=
  if f = "provider_name" then
    some "Please specify which doctor, salon, or service provider you\x27d like to book with"
  else if f = "service_type" then
    some "Please specify what type of service you need (medical, dental, beauty, etc.)"
  else if f = "date" then
    some "Please specify when you\x27d like to book (tomorrow, next Friday, specific date)"
  else if f = "time_slot" then
    some "Please specify what time you prefer (morning, afternoon, or specific time like 2:30 PM)"
  else none

/-- `IntentValidator._generate_missing_field_suggestions`. -/
def generate_missing_field_suggestions (missing : List String) : List String :=
  missing.filterMap field_prompt

/-- Python `f"{x}"` on an `Optional[str]`. -/
def pyStr : Option String → String
  | none => "None"
  | some s => s

/-- The `confirmed_slot` record of the `exact_match` status dict. -/
structure ConfirmedSlot where
  time : String
  available_spots : Int
  capacity : Int
deriving DecidableEq, Repr

/-- The status dict returned by `_validate_time_slot_with_capacity`, one
constructor per `status` value. -/
inductive TimeValidation where
  | invalid (message : String) (suggestions : List String)
  | noSlots (message : String) (suggestions : List String)
  | exactMatch (confirmed_slot : ConfirmedSlot)
  | alternativeFound (message : String) (suggested_slot : AltSlot)
      (alternatives : List AltSlot)
  | noCapacity (message : String) (suggestions : List String)
deriving DecidableEq, Repr

/-- The exact-match step of `_validate_time_slot_with_capacity`: the
requested normalized time must be a key of the date's slots and have
spare capacity. -/
def exact_slot (normalized : String) (available_slots : List (String × SlotInfo)) :
    Option ConfirmedSlot :=
  match alookup normalized available_slots with
  | some info =>
    if info.capacity - info.booked > 0 then
      some ⟨normalized, info.capacity - info.booked, info.capacity⟩
    else none
  | none => none

/-- `IntentValidator._validate_time_slot_with_capacity`.  The `except
ValueError` of the source catches exactly the date `strptime` failure,
modelled by the `parseDate` `none` branch. -/
def validate_time_slot_with_capacity (now : PyDateTime) (store : Store)
    (date time_slot _provider : String) : TimeValidation :=
  match parseDate date.data with
  | none =>
    .invalid ("Invalid date format: " ++ date)
      ["Please provide date in YYYY-MM-DD format"]
  | some (y, mo, dy) =>
    if daysFromCivil y mo dy < dateOrd now then
      .invalid "Cannot book appointments in the past" ["Please choose a future date"]
    else if daysFromCivil y mo dy * 86400 > toSec now + 90 * 86400 then
      .invalid "Cannot book more than 90 days in advance"
        ["Please choose a date within the next 3 months"]
    else
      let available_slots := (alookup date store).getD []
      if available_slots.isEmpty then
        .noSlots ("No available slots on " ++ date)
          ["Available dates: " ++ String.intercalate ", " (store.map (·.1))]
      else
        let normalized := normalize_time_slot time_slot
        match exact_slot normalized available_slots with
        | some c => .exactMatch c
        | none =>
          match find_alternative_slots now date normalized available_slots with
          | [] =>
            .noCapacity
              ("No available slots on " ++ date ++ ". All time slots are fully booked.")
              ["Please try a different date",
               "Available dates: " ++ String.intercalate ", " (store.map (·.1))]
          | nearest :: more =>
            .alternativeFound
              ("Time slot " ++ time_slot ++ " is not available (full or doesn\x27t exist)")
              nearest ((nearest :: more).take 5)

/-- The closed `ValidationResult` enumeration. -/
inductive ValidationResult where
  | VALID
  | VALID_WITH_ALTERNATIVE
  | INVALID_TIME_SLOT
  | INVALID_PROVIDER
  | INVALID_SERVICE
  | MISSING_REQUIRED_DATA
  | PROVIDER_NOT_AVAILABLE
  | NO_CAPACITY
deriving DecidableEq, Repr

/-- The `validated_data` dict attached to accepted validations. -/
structure ValidatedData where
  provider_name : String
  service_type : String
  date : String
  time_slot : String
  available_spots : Int
  booking_reference : String
deriving DecidableEq, Repr

/-- `f"REF_{datetime.now().strftime('%Y%m%d_%H%M%S')}"`. -/
def bookingRef (now : PyDateTime) : String :=
  "REF_" ++ padNum 4 now.year ++ padNum 2 now.month ++ padNum 2 now.day ++
  "_" ++ padNum 2 now.hour ++ padNum 2 now.minute ++ padNum 2 now.second

/-- The `ValidationResponse` model. -/
structure ValidationResponse where
  is_valid : Bool
  validation_result : ValidationResult
  error_message : Option String := none
  suggestions : Option (List String) := none
  validated_data : Option ValidatedData := none
  alternative_slots : Option (List AltSlot) := none
  next_action : String
deriving DecidableEq, Repr

/-- `IntentValidator.validate_intent`; `now` stands for the (single) clock
reading of the request and `store` for the `MOCK_TIME_SLOTS` state, which
this function only reads. -/
def validate_intent (now : PyDateTime) (store : Store) (intent : IntentData) :
    ValidationResponse :=
  let missing := check_missing_fields intent
  if missing.isEmpty then
    let pv := validate_provider (pyStr intent.provider_name) (pyStr intent.service_type)
    if pv.valid then
      match validate_time_slot_with_capacity now store (pyStr intent.date)
          (pyStr intent.time_slot) (pyStr intent.provider_name) with
      | .exactMatch c =>
        { is_valid := true
          validation_result := .VALID
          validated_data := some
            { provider_name := pyStr intent.provider_name
              service_type := pyStr intent.service_type
              date := pyStr intent.date
              time_slot := c.time
              available_spots := c.available_spots
              booking_reference := bookingRef now }
          next_action := "proceed_to_booking" }
      | .alternativeFound msg sug alts =>
        { is_valid := true
          validation_result := .VALID_WITH_ALTERNATIVE
          error_message := some msg
          validated_data := some
            { provider_name := pyStr intent.provider_name
              service_type := pyStr intent.service_type
              date := pyStr intent.date
              time_slot := sug.time
              available_spots := sug.available_spots
              booking_reference := bookingRef now }
          alternative_slots := some alts
          suggestions := some
            ["Your preferred time " ++ pyStr intent.time_slot ++ " is not available.",
             "I\x27ve found the nearest available slot: " ++ sug.time,
             "You can also choose from other available times listed below."]
          next_action := "proceed_to_booking" }
      | .invalid msg sugg | .noSlots msg sugg | .noCapacity msg sugg =>
        { is_valid := false
          validation_result := .NO_CAPACITY
          error_message := some msg
          suggestions := some sugg
          alternative_slots := some []
          next_action := "return_error" }
    else
      { is_valid := false
        validation_result := .INVALID_PROVIDER
        error_message := some pv.message
        suggestions := some pv.suggestions
        next_action := "return_error" }
  else
    { is_valid := false
      validation_result := .MISSING_REQUIRED_DATA
      error_message := some ("Missing required information: " ++
        String.intercalate ", " missing)
      suggestions := some (generate_missing_field_suggestions missing)
      next_action := "return_error" }

/-- The `booking_details` dict of a successful `book_slot`. -/
structure BookingDetails where
  date : String
  time : String
  provider : String
  remaining_spots : Int
deriving DecidableEq, Repr

/-- The result dict of `book_slot`. -/
structure BookResult where
  success : Bool
  message : String
  booking_details : Option BookingDetails := none
deriving DecidableEq, Repr

/-- `MOCK_TIME_SLOTS[date][time_slot]["booked"] += 1` at the time level. -/
def updateBooked (t : String) : List (String × SlotInfo) → List (String × SlotInfo)
  | [] => []
  | (k, info) :: rest =>
    if k = t then (k, { info with booked := info.booked + 1 }) :: rest
    else (k, info) :: updateBooked t rest

/-- `MOCK_TIME_SLOTS[date][time_slot]["booked"] += 1` at the date level. -/
def updateSlots (d t : String) : Store → Store
  | [] => []
  | (k, slots) :: rest =>
    if k = d then (k, updateBooked t slots) :: rest
    else (k, slots) :: updateSlots d t rest

/-- `IntentValidator.book_slot`: the commit operation, returning the result
dict together with the post-state of the mutated global store. -/
def book_slot (store : Store) (date time_slot provider : String) :
    BookResult × Store :=
  match alookup date store with
  | none => (⟨false, "Date not available", none⟩, store)
  | some slots =>
    match alookup time_slot slots with
    | none => (⟨false, "Time slot not available", none⟩, store)
    | some slot_info =>
      if slot_info.capacity - slot_info.booked ≤ 0 then
        (⟨false, "No capacity available", none⟩, store)
      else
        (⟨true, "Slot booked successfully",
          some ⟨date, time_slot, provider,
                slot_info.capacity - (slot_info.booked + 1)⟩⟩,
         updateSlots date time_slot store)

example :
    (find_alternative_slots ⟨2025, 5, 26, 8, 0, 0⟩ "2025-05-26" "10:00"
      [("09:00", ⟨3, 1⟩), ("10:00", ⟨2, 2⟩), ("11:00", ⟨4, 0⟩),
       ("14:00", ⟨3, 1⟩), ("15:00", ⟨2, 0⟩), ("16:00", ⟨1, 0⟩)]).map
        (fun e => (e.time, e.time_difference_minutes)) =
      [("09:00", 60), ("11:00", 60), ("14:00", 240), ("15:00", 300), ("16:00", 360)] := by
  decide

example :
    (validate_intent ⟨2025, 5, 26, 8, 0, 0⟩ MOCK_TIME_SLOTS
      ⟨some "Dr. Smith", some "9 am", some "medical", some "2025-05-26", some "medium"⟩).validation_result
      = .VALID := by decide

example :
    (validate_intent ⟨2025, 5, 26, 8, 0, 0⟩ MOCK_TIME_SLOTS
      ⟨some "Dr. Smith", some "10:00", some "medical", some "2025-05-26", some "medium"⟩).validated_data.map
      (·.time_slot) = some "09:00" := by decide

example :
    (book_slot MOCK_TIME_SLOTS "2025-05-26" "16:00" "Dr. Smith").1.success = true := by decide

/-- Read of a single slot: Python `MOCK_TIME_SLOTS[date][time]`. -/
def lookupSlot (store : Store) (d t : String) : Option SlotInfo :=
  (alookup d store).bind (alookup t)

theorem alookup_updateBooked (t tq : String) (slots : List (String × SlotInfo)) :
    alookup tq (updateBooked t slots) =
      if tq = t then (alookup t slots).map (fun i => { i with booked := i.booked + 1 })
      else alookup tq slots := by
  induction slots with
  | nil => simp [updateBooked, alookup]
  | cons head rest ih =>
    obtain ⟨k, info⟩ := head
    by_cases hk : k = t
    · subst hk
      by_cases hq : tq = k <;> simp [updateBooked, alookup, hq, ih]
    · have hk' : ¬ t = k := fun h => hk h.symm
      by_cases hq : tq = k
      · subst hq
        have hqt : ¬ tq = t := hk
        simp [updateBooked, alookup, hk, hk', hqt]
      · simp [updateBooked, alookup, hk, hk', hq, ih]

theorem alookup_updateSlots (d t dq : String) (store : Store) :
    alookup dq (updateSlots d t store) =
      if dq = d then (alookup d store).map (updateBooked t)
      else alookup dq store := by
  induction store with
  | nil => simp [updateSlots, alookup]
  | cons head rest ih =>
    obtain ⟨k, slots⟩ := head
    by_cases hk : k = d
    · subst hk
      by_cases hq : dq = k <;> simp [updateSlots, alookup, hq, ih]
    · have hk' : ¬ d = k := fun h => hk h.symm
      by_cases hq : dq = k
      · subst hq
        have hqd : ¬ dq = d := hk
        simp [updateSlots, alookup, hk, hk', hqd]
      · simp [updateSlots, alookup, hk, hk', hq, ih]

theorem book_slot_snd_eq (store : Store) (d t p : String) :
    (book_slot store d t p).2 =
      if (book_slot store d t p).1.success = true then updateSlots d t store
      else store := by
  cases h1 : alookup d store with
  | none => simp [book_slot, h1]
  | some slots =>
    cases h2 : alookup t slots with
    | none => simp [book_slot, h1, h2]
    | some info =>
      by_cases hc : info.capacity ≤ info.booked
      · simp [book_slot, h1, h2, hc]
      · simp [book_slot, h1, h2, hc]

theorem book_slot_success_iff (store : Store) (d t p : String) :
    (book_slot store d t p).1.success = true ↔
      ∃ i, lookupSlot store d t = some i ∧ 0 < i.capacity - i.booked := by
  cases h1 : alookup d store with
  | none => simp [book_slot, lookupSlot, h1]
  | some slots =>
    cases h2 : alookup t slots with
    | none => simp [book_slot, lookupSlot, h1, h2]
    | some info =>
      by_cases hc : info.capacity ≤ info.booked
      · simp only [book_slot, lookupSlot, h1, h2, Option.some_bind]
        rw [if_pos (by omega)]
        constructor
        · intro h; simp at h
        · rintro ⟨i, hi, hci⟩
          cases Option.some.inj hi
          omega
      · simp only [book_slot, lookupSlot, h1, h2, Option.some_bind]
        rw [if_neg (by omega)]
        constructor
        · intro _; exact ⟨info, rfl, by omega⟩
        · intro _; rfl

/-- Claim C1: for every slot, if `0 ≤ booked ≤ capacity` holds before a call
to `book_slot`, it holds afterwards, whether the call succeeds or fails;
in particular a successful commit never drives `booked` above `capacity`
and `available = capacity − booked` stays nonnegative. -/
theorem book_slot_preserves_capacity_invariant
    (store : Store) (d t p dq tq : String) (i : SlotInfo)
    (hlk : lookupSlot store dq tq = some i)
    (h0 : 0 ≤ i.booked) (h1 : i.booked ≤ i.capacity) :
    ∃ i', lookupSlot (book_slot store d t p).2 dq tq = some i' ∧
      0 ≤ i'.booked ∧ i'.booked ≤ i'.capacity ∧ 0 ≤ i'.capacity - i'.booked := by
  rw [book_slot_snd_eq]
  by_cases hs : (book_slot store d t p).1.success = true
  · rw [if_pos hs]
    obtain ⟨j, hj, hjc⟩ := (book_slot_success_iff store d t p).1 hs
    unfold lookupSlot at hlk hj ⊢
    rw [alookup_updateSlots]
    by_cases hdq : dq = d
    · subst hdq
      cases hd : alookup dq store with
      | none => rw [hd] at hlk; exact absurd hlk (by simp)
      | some slots =>
        rw [hd] at hlk hj
        simp only [Option.some_bind] at hlk hj
        rw [if_pos rfl]
        simp only [Option.map_some', Option.some_bind]
        rw [alookup_updateBooked]
        by_cases htq : tq = t
        · subst htq
          rw [hlk] at hj
          cases Option.some.inj hj
          refine ⟨{ i with booked := i.booked + 1 }, ?_, ?_, ?_, ?_⟩
          · rw [if_pos rfl, hlk]; rfl
          · simp; omega
          · simp; omega
          · simp; omega
        · exact ⟨i, by rw [if_neg htq]; exact hlk, h0, h1, by omega⟩
    · rw [if_neg hdq]
      exact ⟨i, hlk, h0, h1, by omega⟩
  · rw [if_neg hs]
    exact ⟨i, hlk, h0, h1, by omega⟩

/-- Claim C1 witness: booking the one-capacity slot 16:00 on 2025-05-26 in
the mock store keeps the invariant on that slot. -/
theorem book_slot_preserves_capacity_invariant_witness :
    ∃ i', lookupSlot (book_slot MOCK_TIME_SLOTS "2025-05-26" "16:00" "Dr. Smith").2
        "2025-05-26" "16:00" = some i' ∧
      0 ≤ i'.booked ∧ i'.booked ≤ i'.capacity ∧ 0 ≤ i'.capacity - i'.booked :=
  book_slot_preserves_capacity_invariant MOCK_TIME_SLOTS "2025-05-26" "16:00"
    "Dr. Smith" "2025-05-26" "16:00" ⟨1, 0⟩ (by decide) (by decide) (by decide)

/-- Claim C2: `book_slot` fails with a slot-not-found outcome when the
(date, time) pair does not exist, fails with the distinct capacity outcome
when the slot exists but has no spare capacity, and otherwise increments
the slot's booked count by exactly 1 and reports the new
`available = capacity − booked`; on a slot with one spare unit a first call
succeeds and a second subsequent call fails with the capacity error. -/
theorem book_slot_outcomes (store : Store) (d t p : String) :
    (alookup d store = none →
      book_slot store d t p = (⟨false, "Date not available", none⟩, store)) ∧
    (∀ slots, alookup d store = some slots → alookup t slots = none →
      book_slot store d t p = (⟨false, "Time slot not available", none⟩, store)) ∧
    (∀ slots i, alookup d store = some slots → alookup t slots = some i →
      i.capacity - i.booked ≤ 0 →
      book_slot store d t p = (⟨false, "No capacity available", none⟩, store)) ∧
    (∀ slots i, alookup d store = some slots → alookup t slots = some i →
      0 < i.capacity - i.booked →
      (book_slot store d t p).1 =
        ⟨true, "Slot booked successfully",
         some ⟨d, t, p, i.capacity - (i.booked + 1)⟩⟩ ∧
      lookupSlot (book_slot store d t p).2 d t =
        some { i with booked := i.booked + 1 }) ∧
    (∀ slots i, alookup d store = some slots → alookup t slots = some i →
      i.capacity - i.booked = 1 →
      (book_slot store d t p).1.success = true ∧
      (book_slot (book_slot store d t p).2 d t p).1 =
        ⟨false, "No capacity available", none⟩) := by
  have hfst : ∀ slots i, alookup d store = some slots → alookup t slots = some i →
      0 < i.capacity - i.booked →
      (book_slot store d t p).1 =
        ⟨true, "Slot booked successfully",
         some ⟨d, t, p, i.capacity - (i.booked + 1)⟩⟩ := by
    intro slots i h1 h2 hc
    simp only [book_slot, h1, h2]
    rw [if_neg (by omega)]
  have hpost : ∀ slots i, alookup d store = some slots → alookup t slots = some i →
      0 < i.capacity - i.booked →
      lookupSlot (book_slot store d t p).2 d t =
        some { i with booked := i.booked + 1 } := by
    intro slots i h1 h2 hc
    have hs : (book_slot store d t p).1.success = true := by
      rw [hfst slots i h1 h2 hc]
    rw [book_slot_snd_eq, if_pos hs]
    unfold lookupSlot
    rw [alookup_updateSlots, if_pos rfl, h1]
    simp only [Option.map_some', Option.some_bind]
    rw [alookup_updateBooked, if_pos rfl, h2]
    rfl
  refine ⟨?_, ?_, ?_, ?_, ?_⟩
  · intro h1
    simp [book_slot, h1]
  · intro slots h1 h2
    simp [book_slot, h1, h2]
  · intro slots i h1 h2 hc
    simp only [book_slot, h1, h2]
    rw [if_pos (by omega)]
  · intro slots i h1 h2 hc
    exact ⟨hfst slots i h1 h2 hc, hpost slots i h1 h2 hc⟩
  · intro slots i h1 h2 hc
    have hs : (book_slot store d t p).1.success = true := by
      rw [hfst slots i h1 h2 (by omega)]
    refine ⟨hs, ?_⟩
    have hlk2 : lookupSlot (book_slot store d t p).2 d t =
        some { i with booked := i.booked + 1 } :=
      hpost slots i h1 h2 (by omega)
    unfold lookupSlot at hlk2
    cases hd2 : alookup d (book_slot store d t p).2 with
    | none => rw [hd2] at hlk2; exact absurd hlk2 (by simp)
    | some slots2 =>
      rw [hd2] at hlk2
      simp only [Option.some_bind] at hlk2
      set s2 := (book_slot store d t p).2 with hs2
      simp only [book_slot, hd2, hlk2]
      rw [if_pos (by simp; omega)]

/-- Claim C2 witness: on 2025-05-27 09:00 (capacity 3, booked 2, one spot
left) the first booking succeeds reporting 0 remaining, and a second
booking of the same slot fails with the capacity error. -/
theorem book_slot_outcomes_witness :
    (book_slot MOCK_TIME_SLOTS "2025-05-27" "09:00" "Dr. Smith").1 =
      ⟨true, "Slot booked successfully",
       some ⟨"2025-05-27", "09:00", "Dr. Smith", 0⟩⟩ ∧
    (book_slot (book_slot MOCK_TIME_SLOTS "2025-05-27" "09:00" "Dr. Smith").2
        "2025-05-27" "09:00" "Dr. Smith").1 =
      ⟨false, "No capacity available", none⟩ := by
  have h := book_slot_outcomes MOCK_TIME_SLOTS "2025-05-27" "09:00" "Dr. Smith"
  have h4 := h.2.2.2.1
    [("09:00", ⟨3, 2⟩), ("10:30", ⟨2, 0⟩), ("13:00", ⟨4, 3⟩),
     ("14:30", ⟨3, 0⟩), ("16:00", ⟨2, 1⟩)] ⟨3, 2⟩
    (by decide) (by decide) (by decide)
  have h5 := h.2.2.2.2
    [("09:00", ⟨3, 2⟩), ("10:30", ⟨2, 0⟩), ("13:00", ⟨4, 3⟩),
     ("14:30", ⟨3, 0⟩), ("16:00", ⟨2, 1⟩)] ⟨3, 2⟩
    (by decide) (by decide) (by decide)
  exact ⟨by rw [h4.1]; decide, h5.2⟩

section UnfoldingLemmas

variable (now : PyDateTime) (store : Store) (date ts p : String)

theorem tv_invalid_format (hpd : parseDate date.data = none) :
    validate_time_slot_with_capacity now store date ts p =
      .invalid ("Invalid date format: " ++ date)
        ["Please provide date in YYYY-MM-DD format"] := by
  simp only [validate_time_slot_with_capacity, hpd]

theorem tv_past (y mo dy : Nat) (hpd : parseDate date.data = some (y, mo, dy))
    (hpast : daysFromCivil y mo dy < dateOrd now) :
    validate_time_slot_with_capacity now store date ts p =
      .invalid "Cannot book appointments in the past"
        ["Please choose a future date"] := by
  simp only [validate_time_slot_with_capacity, hpd, hpast, if_true]

theorem tv_future (y mo dy : Nat) (hpd : parseDate date.data = some (y, mo, dy))
    (hpast : ¬ daysFromCivil y mo dy < dateOrd now)
    (hfut : daysFromCivil y mo dy * 86400 > toSec now + 90 * 86400) :
    validate_time_slot_with_capacity now store date ts p =
      .invalid "Cannot book more than 90 days in advance"
        ["Please choose a date within the next 3 months"] := by
  simp only [validate_time_slot_with_capacity, hpd, hpast, hfut, if_true, if_false]

theorem tv_exact (y mo dy : Nat) (slots : List (String × SlotInfo))
    (c : ConfirmedSlot)
    (hpd : parseDate date.data = some (y, mo, dy))
    (hpast : ¬ daysFromCivil y mo dy < dateOrd now)
    (hfut : ¬ daysFromCivil y mo dy * 86400 > toSec now + 90 * 86400)
    (hsl : alookup date store = some slots)
    (hne : slots.isEmpty = false)
    (hex : exact_slot (normalize_time_slot ts) slots = some c) :
    validate_time_slot_with_capacity now store date ts p = .exactMatch c := by
  simp only [validate_time_slot_with_capacity, hpd, hpast, hfut, hsl,
    Option.getD_some, hne, hex, if_false, Bool.false_eq_true]

theorem tv_alternative (y mo dy : Nat) (slots : List (String × SlotInfo))
    (a : AltSlot) (as' : List AltSlot)
    (hpd : parseDate date.data = some (y, mo, dy))
    (hpast : ¬ daysFromCivil y mo dy < dateOrd now)
    (hfut : ¬ daysFromCivil y mo dy * 86400 > toSec now + 90 * 86400)
    (hsl : alookup date store = some slots)
    (hne : slots.isEmpty = false)
    (hex : exact_slot (normalize_time_slot ts) slots = none)
    (hfa : find_alternative_slots now date (normalize_time_slot ts) slots = a :: as') :
    validate_time_slot_with_capacity now store date ts p =
      .alternativeFound
        ("Time slot " ++ ts ++ " is not available (full or doesn\x27t exist)")
        a ((a :: as').take 5) := by
  simp only [validate_time_slot_with_capacity, hpd, hpast, hfut, hsl,
    Option.getD_some, hne, hex, hfa, if_false, Bool.false_eq_true]

theorem tv_nocap (y mo dy : Nat) (slots : List (String × SlotInfo))
    (hpd : parseDate date.data = some (y, mo, dy))
    (hpast : ¬ daysFromCivil y mo dy < dateOrd now)
    (hfut : ¬ daysFromCivil y mo dy * 86400 > toSec now + 90 * 86400)
    (hsl : alookup date store = some slots)
    (hne : slots.isEmpty = false)
    (hex : exact_slot (normalize_time_slot ts) slots = none)
    (hfa : find_alternative_slots now date (normalize_time_slot ts) slots = []) :
    validate_time_slot_with_capacity now store date ts p =
      .noCapacity
        ("No available slots on " ++ date ++ ". All time slots are fully booked.")
        ["Please try a different date",
         "Available dates: " ++ String.intercalate ", " (store.map (·.1))] := by
  simp only [validate_time_slot_with_capacity, hpd, hpast, hfut, hsl,
    Option.getD_some, hne, hex, hfa, if_false, Bool.false_eq_true]

end UnfoldingLemmas

section DispatchLemmas

variable (now : PyDateTime) (store : Store) (intent : IntentData)

theorem vi_exact (c : ConfirmedSlot)
    (hmiss : check_missing_fields intent = [])
    (hprov : (validate_provider (pyStr intent.provider_name)
      (pyStr intent.service_type)).valid = true)
    (htv : validate_time_slot_with_capacity now store (pyStr intent.date)
      (pyStr intent.time_slot) (pyStr intent.provider_name) = .exactMatch c) :
    validate_intent now store intent =
      { is_valid := true
        validation_result := .VALID
        validated_data := some
          { provider_name := pyStr intent.provider_name
            service_type := pyStr intent.service_type
            date := pyStr intent.date
            time_slot := c.time
            available_spots := c.available_spots
            booking_reference := bookingRef now }
        next_action := "proceed_to_booking" } := by
  simp only [validate_intent, hmiss, List.isEmpty_nil, if_true, hprov, htv]

theorem vi_alternative (msg : String) (sug : AltSlot) (alts : List AltSlot)
    (hmiss : check_missing_fields intent = [])
    (hprov : (validate_provider (pyStr intent.provider_name)
      (pyStr intent.service_type)).valid = true)
    (htv : validate_time_slot_with_capacity now store (pyStr intent.date)
      (pyStr intent.time_slot) (pyStr intent.provider_name) =
        .alternativeFound msg sug alts) :
    validate_intent now store intent =
      { is_valid := true
        validation_result := .VALID_WITH_ALTERNATIVE
        error_message := some msg
        validated_data := some
          { provider_name := pyStr intent.provider_name
            service_type := pyStr intent.service_type
            date := pyStr intent.date
            time_slot := sug.time
            available_spots := sug.available_spots
            booking_reference := bookingRef now }
        alternative_slots := some alts
        suggestions := some
          ["Your preferred time " ++ pyStr intent.time_slot ++ " is not available.",
           "I\x27ve found the nearest available slot: " ++ sug.time,
           "You can also choose from other available times listed below."]
        next_action := "proceed_to_booking" } := by
  simp only [validate_intent, hmiss, List.isEmpty_nil, if_true, hprov, htv]

theorem vi_invalid (msg : String) (sugg : List String)
    (hmiss : check_missing_fields intent = [])
    (hprov : (validate_provider (pyStr intent.provider_name)
      (pyStr intent.service_type)).valid = true)
    (htv : validate_time_slot_with_capacity now store (pyStr intent.date)
      (pyStr intent.time_slot) (pyStr intent.provider_name) = .invalid msg sugg) :
    validate_intent now store intent =
      { is_valid := false
        validation_result := .NO_CAPACITY
        error_message := some msg
        suggestions := some sugg
        alternative_slots := some []
        next_action := "return_error" } := by
  simp only [validate_intent, hmiss, List.isEmpty_nil, if_true, hprov, htv]

theorem vi_noSlots (msg : String) (sugg : List String)
    (hmiss : check_missing_fields intent = [])
    (hprov : (validate_provider (pyStr intent.provider_name)
      (pyStr intent.service_type)).valid = true)
    (htv : validate_time_slot_with_capacity now store (pyStr intent.date)
      (pyStr intent.time_slot) (pyStr intent.provider_name) = .noSlots msg sugg) :
    validate_intent now store intent =
      { is_valid := false
        validation_result := .NO_CAPACITY
        error_message := some msg
        suggestions := some sugg
        alternative_slots := some []
        next_action := "return_error" } := by
  simp only [validate_intent, hmiss, List.isEmpty_nil, if_true, hprov, htv]

theorem vi_noCapacity (msg : String) (sugg : List String)
    (hmiss : check_missing_fields intent = [])
    (hprov : (validate_provider (pyStr intent.provider_name)
      (pyStr intent.service_type)).valid = true)
    (htv : validate_time_slot_with_capacity now store (pyStr intent.date)
      (pyStr intent.time_slot) (pyStr intent.provider_name) = .noCapacity msg sugg) :
    validate_intent now store intent =
      { is_valid := false
        validation_result := .NO_CAPACITY
        error_message := some msg
        suggestions := some sugg
        alternative_slots := some []
        next_action := "return_error" } := by
  simp only [validate_intent, hmiss, List.isEmpty_nil, if_true, hprov, htv]

end DispatchLemmas

/-- Claim C3: an intent with all required fields, a validating
provider/service pair, an in-bounds date, and a normalized requested time
that exactly matches an existing slot with spare capacity yields `VALID`,
with `validated_data.time_slot` the normalized requested time,
`available_spots = capacity − booked` of that slot, and
`next_action = "proceed_to_booking"`. -/
theorem validate_intent_exact_match_valid
    (now : PyDateTime) (store : Store) (pn ts sv dt : String) (conf : Option String)
    (y mo dy : Nat) (slots : List (String × SlotInfo)) (info : SlotInfo)
    (hmiss : check_missing_fields ⟨some pn, some ts, some sv, some dt, conf⟩ = [])
    (hprov : (validate_provider pn sv).valid = true)
    (hpd : parseDate dt.data = some (y, mo, dy))
    (hpast : ¬ daysFromCivil y mo dy < dateOrd now)
    (hfut : ¬ daysFromCivil y mo dy * 86400 > toSec now + 90 * 86400)
    (hsl : alookup dt store = some slots)
    (hne : slots.isEmpty = false)
    (hex : alookup (normalize_time_slot ts) slots = some info)
    (hcap : 0 < info.capacity - info.booked) :
    validate_intent now store ⟨some pn, some ts, some sv, some dt, conf⟩ =
      { is_valid := true
        validation_result := .VALID
        validated_data := some
          { provider_name := pn
            service_type := sv
            date := dt
            time_slot := normalize_time_slot ts
            available_spots := info.capacity - info.booked
            booking_reference := bookingRef now }
        next_action := "proceed_to_booking" } := by
  have hexs : exact_slot (normalize_time_slot ts) slots =
      some ⟨normalize_time_slot ts, info.capacity - info.booked, info.capacity⟩ := by
    simp only [exact_slot, hex]
    rw [if_pos hcap]
  exact vi_exact now store ⟨some pn, some ts, some sv, some dt, conf⟩ _
    hmiss hprov
    (tv_exact now store dt ts pn y mo dy slots _ hpd hpast hfut hsl hne hexs)

/-- Claim C3 witness: "Dr. Smith", medical, 2025-05-26 at "9 am" (slot
09:00, capacity 3, booked 1) validated at clock 2025-05-26 08:00:00. -/
theorem validate_intent_exact_match_valid_witness :
    validate_intent ⟨2025, 5, 26, 8, 0, 0⟩ MOCK_TIME_SLOTS
        ⟨some "Dr. Smith", some "9 am", some "medical", some "2025-05-26",
         some "medium"⟩ =
      { is_valid := true
        validation_result := .VALID
        validated_data := some
          { provider_name := "Dr. Smith"
            service_type := "medical"
            date := "2025-05-26"
            time_slot := "09:00"
            available_spots := 2
            booking_reference := "REF_20250526_080000" }
        next_action := "proceed_to_booking" } := by
  have h := validate_intent_exact_match_valid ⟨2025, 5, 26, 8, 0, 0⟩
    MOCK_TIME_SLOTS "Dr. Smith" "9 am" "medical" "2025-05-26" (some "medium")
    2025 5 26
    [("09:00", ⟨3, 1⟩), ("10:00", ⟨2, 2⟩), ("11:00", ⟨4, 0⟩),
     ("14:00", ⟨3, 1⟩), ("15:00", ⟨2, 0⟩), ("16:00", ⟨1, 0⟩)] ⟨3, 1⟩
    (by decide) (by decide) (by decide) (by decide) (by decide)
    (by decide) (by decide) (by decide) (by decide)
  rw [h]; decide




instance : IsTotal AltSlot altLE :=
  ⟨fun a b => Nat.le_total a.time_difference_minutes b.time_difference_minutes⟩

instance : IsTrans AltSlot altLE :=
  ⟨fun _ _ _ h1 h2 => Nat.le_trans h1 h2⟩

/-- Key predicate used in the stability statements. -/
def tdmIs (k : Nat) (e : AltSlot) : Bool := e.time_difference_minutes == k

theorem filter_tdm_cons (k : Nat) (x : AltSlot) (xs : List AltSlot) :
    (x :: xs).filter (tdmIs k) =
      if x.time_difference_minutes = k then x :: xs.filter (tdmIs k)
      else xs.filter (tdmIs k) := by
  rw [List.filter_cons]
  by_cases hx : x.time_difference_minutes = k
  · rw [if_pos (show tdmIs k x = true by simp [tdmIs, hx]), if_pos hx]
  · rw [if_neg (show ¬ tdmIs k x = true by simp [tdmIs, hx]), if_neg hx]

theorem filter_orderedInsert_tdm (k : Nat) (a : AltSlot) (l : List AltSlot) :
    (List.orderedInsert altLE a l).filter (tdmIs k) =
      if a.time_difference_minutes = k then a :: l.filter (tdmIs k)
      else l.filter (tdmIs k) := by
  induction l with
  | nil => simpa using filter_tdm_cons k a []
  | cons b l ih =>
    by_cases hab : altLE a b
    · rw [List.orderedInsert_of_le altLE l hab, filter_tdm_cons k a (b :: l)]
    · have hstep : List.orderedInsert altLE a (b :: l) =
          b :: List.orderedInsert altLE a l := by
        rw [List.orderedInsert, if_neg hab]
      have hlt : b.time_difference_minutes < a.time_difference_minutes := by
        simp only [altLE, not_le] at hab
        exact hab
      rw [hstep, filter_tdm_cons k b (List.orderedInsert altLE a l), ih,
        filter_tdm_cons k b l]
      by_cases hk : a.time_difference_minutes = k
      · have hbk : ¬ b.time_difference_minutes = k := by omega
        simp only [if_pos hk, if_neg hbk]
      · simp only [if_neg hk]

theorem filter_insertionSort_tdm (k : Nat) (l : List AltSlot) :
    (List.insertionSort altLE l).filter (tdmIs k) = l.filter (tdmIs k) := by
  induction l with
  | nil => rfl
  | cons a l ih =>
    have hstep : List.insertionSort altLE (a :: l) =
        List.orderedInsert altLE a (List.insertionSort altLE l) := rfl
    rw [hstep, filter_orderedInsert_tdm, ih, filter_tdm_cons k a l]

theorem mem_alternative_entries (now : PyDateTime) (date rt : String)
    (slots : List (String × SlotInfo)) (e : AltSlot)
    (he : e ∈ alternative_entries now date rt slots) :
    0 < e.available_spots ∧
    ∃ pr ∈ slots, e.time = pr.1 ∧
      e.available_spots = pr.2.capacity - pr.2.booked ∧
      e.capacity = pr.2.capacity ∧
      ∃ sdt, parseDateTime date pr.1 = some sdt ∧
        e.time_difference_minutes =
          absDiff (toSec sdt)
            (toSec ((parseDateTime date rt).getD (noonFallback now))) / 60 := by
  unfold alternative_entries at he
  rw [List.mem_filterMap] at he
  obtain ⟨pr, hpr, hmk⟩ := he
  unfold mkAltEntry at hmk
  by_cases hc : pr.2.capacity - pr.2.booked > 0
  · rw [if_pos hc] at hmk
    cases hp : parseDateTime date pr.1 with
    | none => rw [hp] at hmk; exact absurd hmk (by simp)
    | some sdt =>
      rw [hp] at hmk
      cases Option.some.inj hmk
      exact ⟨hc, pr, hpr, rfl, rfl, rfl, sdt, hp, rfl⟩
  · rw [if_neg hc] at hmk
    exact absurd hmk (by simp)

theorem mem_find_alternative_slots_iff (now : PyDateTime) (date rt : String)
    (slots : List (String × SlotInfo)) (e : AltSlot) :
    e ∈ find_alternative_slots now date rt slots ↔
      e ∈ alternative_entries now date rt slots := by
  unfold find_alternative_slots
  exact (List.perm_insertionSort altLE _).mem_iff

theorem parseDateTime_isSome_of (date t : String) (y mo dy : Nat)
    (hpd : parseDate date.data = some (y, mo, dy))
    (ht : (parseTimeHM t.data).isSome = true) :
    (parseDateTime date t).isSome = true := by
  unfold parseDateTime
  rw [hpd]
  cases hp : parseTimeHM t.data with
  | none => rw [hp] at ht; exact absurd ht (by simp)
  | some v => rfl

theorem mkAltEntry_eq_none_iff (ref : PyDateTime) (date : String)
    (pr : String × SlotInfo) (hparse : (parseDateTime date pr.1).isSome = true) :
    mkAltEntry ref date pr = none ↔ pr.2.capacity - pr.2.booked ≤ 0 := by
  unfold mkAltEntry
  by_cases hc : pr.2.capacity - pr.2.booked > 0
  · rw [if_pos hc]
    cases hp : parseDateTime date pr.1 with
    | none => rw [hp] at hparse; exact absurd hparse (by simp)
    | some sdt =>
      constructor
      · intro h; exact absurd h (by simp)
      · intro h; exact absurd hc (by omega)
  · rw [if_neg hc]
    constructor
    · intro _; omega
    · intro _; rfl

theorem alternative_entries_eq_nil_iff (now : PyDateTime) (date rt : String)
    (slots : List (String × SlotInfo))
    (hparse : ∀ pr ∈ slots, (parseDateTime date pr.1).isSome = true) :
    alternative_entries now date rt slots = [] ↔
      ∀ pr ∈ slots, pr.2.capacity - pr.2.booked ≤ 0 := by
  unfold alternative_entries
  rw [List.filterMap_eq_nil_iff]
  constructor
  · intro h pr hpr
    exact (mkAltEntry_eq_none_iff _ date pr (hparse pr hpr)).1 (h pr hpr)
  · intro h pr hpr
    exact (mkAltEntry_eq_none_iff _ date pr (hparse pr hpr)).2 (h pr hpr)

theorem find_alternative_slots_eq_nil_iff (now : PyDateTime) (date rt : String)
    (slots : List (String × SlotInfo)) :
    find_alternative_slots now date rt slots = [] ↔
      alternative_entries now date rt slots = [] := by
  unfold find_alternative_slots
  constructor
  · intro h
    have := List.length_insertionSort altLE (alternative_entries now date rt slots)
    rw [h] at this
    exact List.length_eq_zero.mp this.symm
  · intro h; rw [h]; rfl

/-- Claim C5: the alternative list ranges over exactly the requested date's
slots with spare capacity, each entry's `time_difference_minutes` being the
absolute second distance between slot instant and reference instant divided
by 60 and truncated; the list is sorted by non-decreasing difference with
ties kept in enumeration order (stable sort); and the validator attaches at
most the first 5 entries while the suggested slot is the head of the full
ranked list. -/
theorem find_alternative_slots_spec :
    (∀ (now : PyDateTime) (date rt : String) (slots : List (String × SlotInfo))
        (e : AltSlot), e ∈ find_alternative_slots now date rt slots →
      0 < e.available_spots ∧
      ∃ pr ∈ slots, e.time = pr.1 ∧
        e.available_spots = pr.2.capacity - pr.2.booked ∧
        e.capacity = pr.2.capacity ∧
        ∃ sdt, parseDateTime date pr.1 = some sdt ∧
          e.time_difference_minutes =
            absDiff (toSec sdt)
              (toSec ((parseDateTime date rt).getD (noonFallback now))) / 60) ∧
    (∀ (now : PyDateTime) (date rt : String) (slots : List (String × SlotInfo)),
      List.Sorted altLE (find_alternative_slots now date rt slots)) ∧
    (∀ (now : PyDateTime) (date rt : String) (slots : List (String × SlotInfo))
        (k : Nat),
      (find_alternative_slots now date rt slots).filter (tdmIs k) =
        (alternative_entries now date rt slots).filter (tdmIs k)) ∧
    (∀ (now : PyDateTime) (store : Store) (date ts p : String) (y mo dy : Nat)
        (slots : List (String × SlotInfo)) (a : AltSlot) (as' : List AltSlot),
      parseDate date.data = some (y, mo, dy) →
      ¬ daysFromCivil y mo dy < dateOrd now →
      ¬ daysFromCivil y mo dy * 86400 > toSec now + 90 * 86400 →
      alookup date store = some slots →
      slots.isEmpty = false →
      exact_slot (normalize_time_slot ts) slots = none →
      find_alternative_slots now date (normalize_time_slot ts) slots = a :: as' →
      validate_time_slot_with_capacity now store date ts p =
        .alternativeFound
          ("Time slot " ++ ts ++ " is not available (full or doesn\x27t exist)")
          a ((a :: as').take 5) ∧
      ((a :: as').take 5).length ≤ 5) := by
  refine ⟨?_, ?_, ?_, ?_⟩
  · intro now date rt slots e he
    exact mem_alternative_entries now date rt slots e
      ((mem_find_alternative_slots_iff now date rt slots e).1 he)
  · intro now date rt slots
    exact List.sorted_insertionSort altLE _
  · intro now date rt slots k
    exact filter_insertionSort_tdm k _
  · intro now store date ts p y mo dy slots a as' hpd hpast hfut hsl hne hex hfa
    refine ⟨tv_alternative now store date ts p y mo dy slots a as'
      hpd hpast hfut hsl hne hex hfa, ?_⟩
    simp

/-- Claim C5 witness: requesting the full 10:00 slot of 2025-05-26 yields
the ranked alternative list headed by 09:00 (stable tie with 11:00 at 60
minutes), sorted, filter-stable at the tied key, and the validator attaches
`take 5` of it with the head as suggested slot. -/
theorem find_alternative_slots_spec_witness :
    List.Sorted altLE (find_alternative_slots ⟨2025, 5, 26, 8, 0, 0⟩
      "2025-05-26" "10:00"
      [("09:00", ⟨3, 1⟩), ("10:00", ⟨2, 2⟩), ("11:00", ⟨4, 0⟩),
       ("14:00", ⟨3, 1⟩), ("15:00", ⟨2, 0⟩), ("16:00", ⟨1, 0⟩)]) ∧
    (find_alternative_slots ⟨2025, 5, 26, 8, 0, 0⟩ "2025-05-26" "10:00"
      [("09:00", ⟨3, 1⟩), ("10:00", ⟨2, 2⟩), ("11:00", ⟨4, 0⟩),
       ("14:00", ⟨3, 1⟩), ("15:00", ⟨2, 0⟩), ("16:00", ⟨1, 0⟩)]).filter (tdmIs 60) =
      (alternative_entries ⟨2025, 5, 26, 8, 0, 0⟩ "2025-05-26" "10:00"
        [("09:00", ⟨3, 1⟩), ("10:00", ⟨2, 2⟩), ("11:00", ⟨4, 0⟩),
         ("14:00", ⟨3, 1⟩), ("15:00", ⟨2, 0⟩), ("16:00", ⟨1, 0⟩)]).filter (tdmIs 60) ∧
    validate_time_slot_with_capacity ⟨2025, 5, 26, 8, 0, 0⟩ MOCK_TIME_SLOTS
        "2025-05-26" "10:00" "Dr. Smith" =
      .alternativeFound
        "Time slot 10:00 is not available (full or doesn\x27t exist)"
        ⟨"09:00", 2, 3, 60⟩
        [⟨"09:00", 2, 3, 60⟩, ⟨"11:00", 4, 4, 60⟩, ⟨"14:00", 2, 3, 240⟩,
         ⟨"15:00", 2, 2, 300⟩, ⟨"16:00", 1, 1, 360⟩] := by
  have h := find_alternative_slots_spec
  refine ⟨h.2.1 _ _ _ _, h.2.2.1 _ _ _ _ 60, ?_⟩
  have h4 := h.2.2.2 ⟨2025, 5, 26, 8, 0, 0⟩ MOCK_TIME_SLOTS "2025-05-26"
    "10:00" "Dr. Smith" 2025 5 26
    [("09:00", ⟨3, 1⟩), ("10:00", ⟨2, 2⟩), ("11:00", ⟨4, 0⟩),
     ("14:00", ⟨3, 1⟩), ("15:00", ⟨2, 0⟩), ("16:00", ⟨1, 0⟩)]
    ⟨"09:00", 2, 3, 60⟩
    [⟨"11:00", 4, 4, 60⟩, ⟨"14:00", 2, 3, 240⟩, ⟨"15:00", 2, 2, 300⟩,
     ⟨"16:00", 1, 1, 360⟩]
    (by decide) (by decide) (by decide) (by decide) (by decide) (by decide)
    (by decide)
  rw [h4.1]
  decide

/-- Claim C4: when the date is in bounds and has slots but the normalized
requested time has no slot or a full slot, the outcome is never `VALID`;
it is `VALID_WITH_ALTERNATIVE` with the nearest ranked slot as validated
payload when some slot of the date has spare capacity, and `NO_CAPACITY`
with `next_action = "return_error"` when none does. -/
theorem validate_intent_no_exact_never_valid
    (now : PyDateTime) (store : Store) (pn ts sv dt : String) (conf : Option String)
    (y mo dy : Nat) (slots : List (String × SlotInfo))
    (hmiss : check_missing_fields ⟨some pn, some ts, some sv, some dt, conf⟩ = [])
    (hprov : (validate_provider pn sv).valid = true)
    (hpd : parseDate dt.data = some (y, mo, dy))
    (hpast : ¬ daysFromCivil y mo dy < dateOrd now)
    (hfut : ¬ daysFromCivil y mo dy * 86400 > toSec now + 90 * 86400)
    (hsl : alookup dt store = some slots)
    (hne : slots.isEmpty = false)
    (hwf : ∀ pr ∈ slots, (parseTimeHM pr.1.data).isSome = true)
    (hex : alookup (normalize_time_slot ts) slots = none ∨
      ∃ info, alookup (normalize_time_slot ts) slots = some info ∧
        info.capacity - info.booked ≤ 0) :
    (validate_intent now store ⟨some pn, some ts, some sv, some dt, conf⟩).validation_result
      ≠ .VALID ∧
    ((∃ pr ∈ slots, 0 < pr.2.capacity - pr.2.booked) →
      (validate_intent now store
          ⟨some pn, some ts, some sv, some dt, conf⟩).validation_result =
        .VALID_WITH_ALTERNATIVE ∧
      (validate_intent now store
          ⟨some pn, some ts, some sv, some dt, conf⟩).next_action =
        "proceed_to_booking" ∧
      (validate_intent now store
          ⟨some pn, some ts, some sv, some dt, conf⟩).validated_data.map (·.time_slot) =
        (find_alternative_slots now dt (normalize_time_slot ts) slots).head?.map
          (·.time) ∧
      (validate_intent now store
          ⟨some pn, some ts, some sv, some dt, conf⟩).validated_data.map
            (·.available_spots) =
        (find_alternative_slots now dt (normalize_time_slot ts) slots).head?.map
          (·.available_spots)) ∧
    ((∀ pr ∈ slots, pr.2.capacity - pr.2.booked ≤ 0) →
      (validate_intent now store
          ⟨some pn, some ts, some sv, some dt, conf⟩).validation_result =
        .NO_CAPACITY ∧
      (validate_intent now store
          ⟨some pn, some ts, some sv, some dt, conf⟩).is_valid = false ∧
      (validate_intent now store
          ⟨some pn, some ts, some sv, some dt, conf⟩).next_action =
        "return_error") := by
  have hdtparse : ∀ pr ∈ slots, (parseDateTime dt pr.1).isSome = true :=
    fun pr hpr => parseDateTime_isSome_of dt pr.1 y mo dy hpd (hwf pr hpr)
  have hexs : exact_slot (normalize_time_slot ts) slots = none := by
    rcases hex with h | ⟨info, h, hc⟩
    · simp [exact_slot, h]
    · simp only [exact_slot, h]
      rw [if_neg (by omega)]
  cases hfa : find_alternative_slots now dt (normalize_time_slot ts) slots with
  | nil =>
    have hall : ∀ pr ∈ slots, pr.2.capacity - pr.2.booked ≤ 0 :=
      (alternative_entries_eq_nil_iff now dt (normalize_time_slot ts) slots
        hdtparse).1
        ((find_alternative_slots_eq_nil_iff now dt (normalize_time_slot ts)
          slots).1 hfa)
    have hr := vi_noCapacity now store ⟨some pn, some ts, some sv, some dt, conf⟩
      _ _ hmiss hprov
      (tv_nocap now store dt ts pn y mo dy slots hpd hpast hfut hsl hne hexs hfa)
    refine ⟨by rw [hr]; simp, ?_, ?_⟩
    · rintro ⟨pr, hpr, hp⟩
      exact absurd hp (by have := hall pr hpr; omega)
    · intro _
      rw [hr]
      exact ⟨rfl, rfl, rfl⟩
  | cons a as' =>
    have hr := vi_alternative now store ⟨some pn, some ts, some sv, some dt, conf⟩
      _ _ _ hmiss hprov
      (tv_alternative now store dt ts pn y mo dy slots a as'
        hpd hpast hfut hsl hne hexs hfa)
    have hmem : a ∈ find_alternative_slots now dt (normalize_time_slot ts) slots := by
      rw [hfa]; exact List.mem_cons_self a as'
    have hchar := mem_alternative_entries now dt (normalize_time_slot ts) slots a
      ((mem_find_alternative_slots_iff now dt (normalize_time_slot ts) slots a).1 hmem)
    refine ⟨by rw [hr]; simp, ?_, ?_⟩
    · intro _
      rw [hr]
      exact ⟨rfl, rfl, rfl, rfl⟩
    · intro hall
      obtain ⟨hpos, pr, hpr, _, heq, _⟩ := hchar
      exact absurd hpos (by have := hall pr hpr; omega)

/-- Claim C4 witness: requesting the full slot 10:00 on 2025-05-26 yields
`VALID_WITH_ALTERNATIVE`, proceeds to booking, and the validated payload is
the nearest ranked slot (09:00 with 2 spots), never `VALID`. -/
theorem validate_intent_no_exact_never_valid_witness :
    (validate_intent ⟨2025, 5, 26, 8, 0, 0⟩ MOCK_TIME_SLOTS
        ⟨some "Dr. Smith", some "10:00", some "medical", some "2025-05-26",
         some "medium"⟩).validation_result ≠ .VALID ∧
    (validate_intent ⟨2025, 5, 26, 8, 0, 0⟩ MOCK_TIME_SLOTS
        ⟨some "Dr. Smith", some "10:00", some "medical", some "2025-05-26",
         some "medium"⟩).validation_result = .VALID_WITH_ALTERNATIVE ∧
    (validate_intent ⟨2025, 5, 26, 8, 0, 0⟩ MOCK_TIME_SLOTS
        ⟨some "Dr. Smith", some "10:00", some "medical", some "2025-05-26",
         some "medium"⟩).next_action = "proceed_to_booking" ∧
    (validate_intent ⟨2025, 5, 26, 8, 0, 0⟩ MOCK_TIME_SLOTS
        ⟨some "Dr. Smith", some "10:00", some "medical", some "2025-05-26",
         some "medium"⟩).validated_data.map (·.time_slot) = some "09:00" := by
  have h := validate_intent_no_exact_never_valid ⟨2025, 5, 26, 8, 0, 0⟩
    MOCK_TIME_SLOTS "Dr. Smith" "10:00" "medical" "2025-05-26" (some "medium")
    2025 5 26
    [("09:00", ⟨3, 1⟩), ("10:00", ⟨2, 2⟩), ("11:00", ⟨4, 0⟩),
     ("14:00", ⟨3, 1⟩), ("15:00", ⟨2, 0⟩), ("16:00", ⟨1, 0⟩)]
    (by decide) (by decide) (by decide) (by decide) (by decide) (by decide)
    (by decide) (by decide)
    (Or.inr ⟨⟨2, 2⟩, by decide, by decide⟩)
  have h2 := h.2.1 ⟨("09:00", ⟨3, 1⟩), by decide, by decide⟩
  refine ⟨h.1, h2.1, h2.2.1, ?_⟩
  rw [h2.2.2.1]
  decide

/-- Claim C6 counterexample: two `validate_intent` calls with equal
`IntentData` and equal slot-store state but clock readings one second apart
return different responses, because the booking reference embeds the clock
timestamp.  The claimed input-and-state purity therefore fails. -/
theorem validate_intent_clock_dependent :
    validate_intent ⟨2025, 5, 26, 10, 0, 0⟩ MOCK_TIME_SLOTS
        ⟨some "Dr. Smith", some "09:00", some "medical", some "2025-05-26",
         some "medium"⟩ ≠
      validate_intent ⟨2025, 5, 26, 10, 0, 1⟩ MOCK_TIME_SLOTS
        ⟨some "Dr. Smith", some "09:00", some "medical", some "2025-05-26",
         some "medium"⟩ := by
  decide

/-- Claim C6 (amended): `validate_intent` never mutates the slot store
(modelled by its store-in, response-out signature) and is a pure function
of its inputs, the slot-store state, and the current clock reading: two
calls with equal intent, equal store and equal clock return equal
responses.  Equality of the clock cannot be dropped, since the booking
reference embeds the clock timestamp. -/
theorem validate_intent_pure_given_clock
    (now now' : PyDateTime) (store store' : Store) (i i' : IntentData)
    (hn : now = now') (hs : store = store') (hi : i = i') :
    validate_intent now store i = validate_intent now' store' i' := by
  subst hn; subst hs; subst hi; rfl

/-- Claim C6 amended witness. -/
theorem validate_intent_pure_given_clock_witness :
    validate_intent ⟨2025, 5, 26, 10, 0, 0⟩ MOCK_TIME_SLOTS
        ⟨some "Dr. Smith", some "09:00", some "medical", some "2025-05-26",
         some "medium"⟩ =
      validate_intent ⟨2025, 5, 26, 10, 0, 0⟩ MOCK_TIME_SLOTS
        ⟨some "Dr. Smith", some "09:00", some "medical", some "2025-05-26",
         some "medium"⟩ :=
  validate_intent_pure_given_clock ⟨2025, 5, 26, 10, 0, 0⟩ ⟨2025, 5, 26, 10, 0, 0⟩
    MOCK_TIME_SLOTS MOCK_TIME_SLOTS
    ⟨some "Dr. Smith", some "09:00", some "medical", some "2025-05-26", some "medium"⟩
    ⟨some "Dr. Smith", some "09:00", some "medical", some "2025-05-26", some "medium"⟩
    rfl rfl rfl

/-- Claim C7 counterexample: with the clock on 2025-05-26 and an
unparseable requested time for date 2025-05-28, the sole alternative's
`time_difference_minutes` is 2640 (distance to 12:00 on the clock's
current date), not the 240 minutes that a reference of 12:00 on the
requested date would give. -/
theorem find_alternative_slots_fallback_counterexample :
    (find_alternative_slots ⟨2025, 5, 26, 10, 0, 0⟩ "2025-05-28" "sometime"
        [("08:00", ⟨2, 0⟩)]).map (·.time_difference_minutes) ≠
      [absDiff (toSec ⟨2025, 5, 28, 8, 0, 0⟩) (toSec ⟨2025, 5, 28, 12, 0, 0⟩) / 60] := by
  decide

/-- Claim C7 (amended): when `f"{date} {normalized_time}"` fails to parse,
the ranking reference instant is `datetime.now().replace(hour=12, minute=0)`
— 12:00 on the clock's *current* date, keeping the clock's seconds — not
12:00 on the requested date; all `time_difference_minutes` are measured
against that instant. -/
theorem find_alternative_slots_fallback_noon_today
    (now : PyDateTime) (date rt : String) (slots : List (String × SlotInfo))
    (hfail : parseDateTime date rt = none) :
    find_alternative_slots now date rt slots =
      List.insertionSort altLE (slots.filterMap (mkAltEntry (noonFallback now) date)) ∧
    ∀ e ∈ find_alternative_slots now date rt slots,
      ∃ pr ∈ slots, e.time = pr.1 ∧
        ∃ sdt, parseDateTime date pr.1 = some sdt ∧
          e.time_difference_minutes =
            absDiff (toSec sdt) (toSec (noonFallback now)) / 60 := by
  constructor
  · unfold find_alternative_slots alternative_entries
    rw [hfail]
    rfl
  · intro e he
    obtain ⟨_, pr, hpr, ht, _, _, sdt, hp, htdm⟩ :=
      mem_alternative_entries now date rt slots e
        ((mem_find_alternative_slots_iff now date rt slots e).1 he)
    rw [hfail] at htdm
    exact ⟨pr, hpr, ht, sdt, hp, htdm⟩

/-- Claim C7 amended witness: the concrete fallback scenario of the
counterexample, ranked against noon of the clock's current date. -/
theorem find_alternative_slots_fallback_noon_today_witness :
    find_alternative_slots ⟨2025, 5, 26, 10, 0, 0⟩ "2025-05-28" "sometime"
        [("08:00", ⟨2, 0⟩)] =
      List.insertionSort altLE
        ([("08:00", (⟨2, 0⟩ : SlotInfo))].filterMap
          (mkAltEntry (noonFallback ⟨2025, 5, 26, 10, 0, 0⟩) "2025-05-28")) :=
  (find_alternative_slots_fallback_noon_today ⟨2025, 5, 26, 10, 0, 0⟩
    "2025-05-28" "sometime" [("08:00", ⟨2, 0⟩)] (by decide)).1

/-- Claim C8: `_normalize_time_slot` maps the four word forms
case-insensitively, maps 12-hour forms per the am/pm rule with minutes
defaulting to 0, maps bare `H:MM` forms to zero-padded `HH:MM`, and on any
input matching none of these returns the trimmed lowercased input
unchanged, never raising an error. -/
theorem normalize_time_slot_spec :
    (∀ s : String, (⟨pyStrip (lowerStr s).data⟩ : String) = "morning" →
      normalize_time_slot s = "09:00") ∧
    (∀ s : String, (⟨pyStrip (lowerStr s).data⟩ : String) = "afternoon" →
      normalize_time_slot s = "14:00") ∧
    (∀ s : String, (⟨pyStrip (lowerStr s).data⟩ : String) = "evening" →
      normalize_time_slot s = "18:00") ∧
    (∀ s : String, (⟨pyStrip (lowerStr s).data⟩ : String) = "noon" →
      normalize_time_slot s = "12:00") ∧
    normalize_time_slot "2:30 PM" = "14:30" ∧
    normalize_time_slot "12 am" = "00:00" ∧
    normalize_time_slot "12 pm" = "12:00" ∧
    normalize_time_slot "3 pm" = "15:00" ∧
    normalize_time_slot "14:00" = "14:00" ∧
    normalize_time_slot "9:30" = "09:30" ∧
    (∀ s t : String, t = (⟨pyStrip (lowerStr s).data⟩ : String) →
      t ≠ "morning" → t ≠ "afternoon" → t ≠ "evening" → t ≠ "noon" →
      matchAmPm t.data = none → matchHM t.data = none →
      normalize_time_slot s = t) := by
  refine ⟨?_, ?_, ?_, ?_, by decide, by decide, by decide, by decide,
    by decide, by decide, ?_⟩
  · intro s h; simp [normalize_time_slot, h]
  · intro s h; simp [normalize_time_slot, h]
  · intro s h; simp [normalize_time_slot, h]
  · intro s h; simp [normalize_time_slot, h]
  · intro s t ht h1 h2 h3 h4 h5 h6
    subst ht
    simp only [normalize_time_slot, if_neg h1, if_neg h2, if_neg h3, if_neg h4,
      h5, h6]

/-- Claim C8 witness: case-insensitive word form, and an unmatchable input
returned trimmed and lowercased. -/
theorem normalize_time_slot_spec_witness :
    normalize_time_slot "  MORNING " = "09:00" ∧
    normalize_time_slot " NooN" = "12:00" ∧
    normalize_time_slot "  SomeTime Soon " = "sometime soon" := by
  have h := normalize_time_slot_spec
  exact ⟨h.1 "  MORNING " (by decide),
    h.2.2.2.1 " NooN" (by decide),
    h.2.2.2.2.2.2.2.2.2.2 "  SomeTime Soon " "sometime soon" (by decide)
      (by decide) (by decide) (by decide) (by decide) (by decide) (by decide)⟩

theorem invalid_format_message_ne_empty (dt : String) :
    "Invalid date format: " ++ dt ≠ "" := by
  intro h
  have h2 : ("Invalid date format: " ++ dt).length = 0 := by rw [h]; rfl
  rw [String.length_append] at h2
  have h3 : ("Invalid date format: " : String).length = 21 := by decide
  omega

/-- Claim C9: once fields and provider pass, an unparseable date, a date
strictly before today, and a date more than 90 days ahead each produce
`validation_result = NO_CAPACITY` with `is_valid = false`,
`next_action = "return_error"` and a non-empty `error_message` — the same
enumeration label a fully booked calendar yields, the three date failures
differing only in their message (and suggestion) text. -/
theorem validate_intent_date_failures
    (now : PyDateTime) (store : Store) (pn ts sv dt : String) (conf : Option String)
    (hmiss : check_missing_fields ⟨some pn, some ts, some sv, some dt, conf⟩ = [])
    (hprov : (validate_provider pn sv).valid = true) :
    (parseDate dt.data = none →
      (validate_intent now store
          ⟨some pn, some ts, some sv, some dt, conf⟩).validation_result =
        .NO_CAPACITY ∧
      (validate_intent now store
          ⟨some pn, some ts, some sv, some dt, conf⟩).is_valid = false ∧
      (validate_intent now store
          ⟨some pn, some ts, some sv, some dt, conf⟩).next_action = "return_error" ∧
      (validate_intent now store
          ⟨some pn, some ts, some sv, some dt, conf⟩).error_message =
        some ("Invalid date format: " ++ dt) ∧
      "Invalid date format: " ++ dt ≠ "") ∧
    (∀ y mo dy, parseDate dt.data = some (y, mo, dy) →
      daysFromCivil y mo dy < dateOrd now →
      (validate_intent now store
          ⟨some pn, some ts, some sv, some dt, conf⟩).validation_result =
        .NO_CAPACITY ∧
      (validate_intent now store
          ⟨some pn, some ts, some sv, some dt, conf⟩).is_valid = false ∧
      (validate_intent now store
          ⟨some pn, some ts, some sv, some dt, conf⟩).next_action = "return_error" ∧
      (validate_intent now store
          ⟨some pn, some ts, some sv, some dt, conf⟩).error_message =
        some "Cannot book appointments in the past" ∧
      ("Cannot book appointments in the past" : String) ≠ "") ∧
    (∀ y mo dy, parseDate dt.data = some (y, mo, dy) →
      ¬ daysFromCivil y mo dy < dateOrd now →
      daysFromCivil y mo dy * 86400 > toSec now + 90 * 86400 →
      (validate_intent now store
          ⟨some pn, some ts, some sv, some dt, conf⟩).validation_result =
        .NO_CAPACITY ∧
      (validate_intent now store
          ⟨some pn, some ts, some sv, some dt, conf⟩).is_valid = false ∧
      (validate_intent now store
          ⟨some pn, some ts, some sv, some dt, conf⟩).next_action = "return_error" ∧
      (validate_intent now store
          ⟨some pn, some ts, some sv, some dt, conf⟩).error_message =
        some "Cannot book more than 90 days in advance" ∧
      ("Cannot book more than 90 days in advance" : String) ≠ "") ∧
    (∀ y mo dy slots, parseDate dt.data = some (y, mo, dy) →
      ¬ daysFromCivil y mo dy < dateOrd now →
      ¬ daysFromCivil y mo dy * 86400 > toSec now + 90 * 86400 →
      alookup dt store = some slots → slots.isEmpty = false →
      exact_slot (normalize_time_slot ts) slots = none →
      find_alternative_slots now dt (normalize_time_slot ts) slots = [] →
      (validate_intent now store
          ⟨some pn, some ts, some sv, some dt, conf⟩).validation_result =
        .NO_CAPACITY) := by
  refine ⟨?_, ?_, ?_, ?_⟩
  · intro hpd
    have hr := vi_invalid now store ⟨some pn, some ts, some sv, some dt, conf⟩
      _ _ hmiss hprov (tv_invalid_format now store dt ts pn hpd)
    rw [hr]
    exact ⟨rfl, rfl, rfl, rfl, invalid_format_message_ne_empty dt⟩
  · intro y mo dy hpd hpast
    have hr := vi_invalid now store ⟨some pn, some ts, some sv, some dt, conf⟩
      _ _ hmiss hprov (tv_past now store dt ts pn y mo dy hpd hpast)
    rw [hr]
    exact ⟨rfl, rfl, rfl, rfl, by decide⟩
  · intro y mo dy hpd hpast hfut
    have hr := vi_invalid now store ⟨some pn, some ts, some sv, some dt, conf⟩
      _ _ hmiss hprov (tv_future now store dt ts pn y mo dy hpd hpast hfut)
    rw [hr]
    exact ⟨rfl, rfl, rfl, rfl, by decide⟩
  · intro y mo dy slots hpd hpast hfut hsl hne hexs hfa
    have hr := vi_noCapacity now store ⟨some pn, some ts, some sv, some dt, conf⟩
      _ _ hmiss hprov
      (tv_nocap now store dt ts pn y mo dy slots hpd hpast hfut hsl hne hexs hfa)
    rw [hr]

/-- Claim C9 witness: the past date 2024-01-01, the malformed date
"someday", and the far-future date 2026-05-26 each judged at clock
2025-05-26 10:00:00, all yielding the `NO_CAPACITY` label. -/
theorem validate_intent_date_failures_witness :
    (validate_intent ⟨2025, 5, 26, 10, 0, 0⟩ MOCK_TIME_SLOTS
        ⟨some "Dr. Smith", some "09:00", some "medical", some "someday",
         some "medium"⟩).validation_result = .NO_CAPACITY ∧
    (validate_intent ⟨2025, 5, 26, 10, 0, 0⟩ MOCK_TIME_SLOTS
        ⟨some "Dr. Smith", some "09:00", some "medical", some "someday",
         some "medium"⟩).error_message = some "Invalid date format: someday" ∧
    (validate_intent ⟨2025, 5, 26, 10, 0, 0⟩ MOCK_TIME_SLOTS
        ⟨some "Dr. Smith", some "09:00", some "medical", some "2024-01-01",
         some "medium"⟩).error_message =
      some "Cannot book appointments in the past" ∧
    (validate_intent ⟨2025, 5, 26, 10, 0, 0⟩ MOCK_TIME_SLOTS
        ⟨some "Dr. Smith", some "09:00", some "medical", some "2026-05-26",
         some "medium"⟩).error_message =
      some "Cannot book more than 90 days in advance" := by
  have h1 := (validate_intent_date_failures ⟨2025, 5, 26, 10, 0, 0⟩
    MOCK_TIME_SLOTS "Dr. Smith" "09:00" "medical" "someday" (some "medium")
    (by decide) (by decide)).1 (by decide)
  have h2 := (validate_intent_date_failures ⟨2025, 5, 26, 10, 0, 0⟩
    MOCK_TIME_SLOTS "Dr. Smith" "09:00" "medical" "2024-01-01" (some "medium")
    (by decide) (by decide)).2.1 2024 1 1 (by decide) (by decide)
  have h3 := (validate_intent_date_failures ⟨2025, 5, 26, 10, 0, 0⟩
    MOCK_TIME_SLOTS "Dr. Smith" "09:00" "medical" "2026-05-26" (some "medium")
    (by decide) (by decide)).2.2.1 2026 5 26 (by decide) (by decide) (by decide)
  refine ⟨h1.1, ?_, h2.2.2.2.1, h3.2.2.2.1⟩
  rw [h1.2.2.2.1]
  decide

theorem alookup_some_imp_mem_key {α : Type} (k : String)
    (l : List (String × α)) (v : α) (h : alookup k l = some v) :
    ∃ pr ∈ l, pr.1 = k := by
  induction l with
  | nil => exact absurd h (by simp [alookup])
  | cons head rest ih =>
    obtain ⟨k', v'⟩ := head
    by_cases hk : k = k'
    · exact ⟨(k', v'), List.mem_cons_self _ _, hk.symm⟩
    · rw [alookup, if_neg hk] at h
      obtain ⟨pr, hpr, hpk⟩ := ih h
      exact ⟨pr, List.mem_cons_of_mem _ hpr, hpk⟩

/-- Claim C10: `_normalize_time_slot` does no range validation — "13 pm"
becomes "25:00" (pm adds 12 to every hour other than 12) and "25:99" is
passed through by the bare `H:MM` branch — and since every stored slot
time parses as a valid `%H:%M` time, such outputs match no slot, so the
request falls through to alternative suggestion (the outcome is
`VALID_WITH_ALTERNATIVE` or `NO_CAPACITY`, never an exact-match `VALID`). -/
theorem normalize_time_slot_out_of_range :
    normalize_time_slot "13 pm" = "25:00" ∧
    normalize_time_slot "25:99" = "25:99" ∧
    (∀ slots : List (String × SlotInfo),
      (∀ pr ∈ slots, (parseTimeHM pr.1.data).isSome = true) →
      alookup "25:00" slots = none ∧ alookup "25:99" slots = none) ∧
    (∀ (now : PyDateTime) (store : Store) (pn sv dt : String)
        (conf : Option String) (y mo dy : Nat) (slots : List (String × SlotInfo)),
      check_missing_fields ⟨some pn, some "13 pm", some sv, some dt, conf⟩ = [] →
      (validate_provider pn sv).valid = true →
      parseDate dt.data = some (y, mo, dy) →
      ¬ daysFromCivil y mo dy < dateOrd now →
      ¬ daysFromCivil y mo dy * 86400 > toSec now + 90 * 86400 →
      alookup dt store = some slots → slots.isEmpty = false →
      (∀ pr ∈ slots, (parseTimeHM pr.1.data).isSome = true) →
      (validate_intent now store
          ⟨some pn, some "13 pm", some sv, some dt, conf⟩).validation_result =
        .VALID_WITH_ALTERNATIVE ∨
      (validate_intent now store
          ⟨some pn, some "13 pm", some sv, some dt, conf⟩).validation_result =
        .NO_CAPACITY) := by
  have hlk : ∀ (k : String), parseTimeHM k.data = none →
      ∀ slots : List (String × SlotInfo),
      (∀ pr ∈ slots, (parseTimeHM pr.1.data).isSome = true) →
      alookup k slots = none := by
    intro k hk slots hwf
    cases h : alookup k slots with
    | none => rfl
    | some v =>
      obtain ⟨pr, hpr, hpk⟩ := alookup_some_imp_mem_key k slots v h
      have := hwf pr hpr
      rw [hpk, hk] at this
      exact absurd this (by simp)
  refine ⟨by decide, by decide, ?_, ?_⟩
  · intro slots hwf
    exact ⟨hlk "25:00" (by decide) slots hwf, hlk "25:99" (by decide) slots hwf⟩
  · intro now store pn sv dt conf y mo dy slots hmiss hprov hpd hpast hfut hsl
      hne hwf
    have hnorm : normalize_time_slot "13 pm" = "25:00" := by decide
    have hexn : alookup (normalize_time_slot "13 pm") slots = none := by
      rw [hnorm]
      exact hlk "25:00" (by decide) slots hwf
    have hexs : exact_slot (normalize_time_slot "13 pm") slots = none := by
      simp [exact_slot, hexn]
    cases hfa : find_alternative_slots now dt (normalize_time_slot "13 pm") slots with
    | nil =>
      right
      rw [vi_noCapacity now store ⟨some pn, some "13 pm", some sv, some dt, conf⟩
        _ _ hmiss hprov
        (tv_nocap now store dt "13 pm" pn y mo dy slots hpd hpast hfut hsl hne
          hexs hfa)]
    | cons a as' =>
      left
      rw [vi_alternative now store ⟨some pn, some "13 pm", some sv, some dt, conf⟩
        _ _ _ hmiss hprov
        (tv_alternative now store dt "13 pm" pn y mo dy slots a as'
          hpd hpast hfut hsl hne hexs hfa)]

/-- Claim C10 witness: the request "13 pm" against the mock store on
2025-05-26 is never an exact match; it resolves to the alternative path. -/
theorem normalize_time_slot_out_of_range_witness :
    normalize_time_slot "13 pm" = "25:00" ∧
    normalize_time_slot "25:99" = "25:99" ∧
    ((validate_intent ⟨2025, 5, 26, 8, 0, 0⟩ MOCK_TIME_SLOTS
        ⟨some "Dr. Smith", some "13 pm", some "medical", some "2025-05-26",
         some "medium"⟩).validation_result = .VALID_WITH_ALTERNATIVE ∨
     (validate_intent ⟨2025, 5, 26, 8, 0, 0⟩ MOCK_TIME_SLOTS
        ⟨some "Dr. Smith", some "13 pm", some "medical", some "2025-05-26",
         some "medium"⟩).validation_result = .NO_CAPACITY) := by
  have h := normalize_time_slot_out_of_range
  exact ⟨h.1, h.2.1,
    h.2.2.2 ⟨2025, 5, 26, 8, 0, 0⟩ MOCK_TIME_SLOTS "Dr. Smith" "medical"
      "2025-05-26" (some "medium") 2025 5 26
      [("09:00", ⟨3, 1⟩), ("10:00", ⟨2, 2⟩), ("11:00", ⟨4, 0⟩),
       ("14:00", ⟨3, 1⟩), ("15:00", ⟨2, 0⟩), ("16:00", ⟨1, 0⟩)]
      (by decide) (by decide) (by decide) (by decide) (by decide) (by decide)
      (by decide) (by decide)⟩
